import Mathlib

/-!
# Verification of the selfhoardify-api adaptive polling and play-deduplication core

Shallow embedding of the ingestion core of the repository:

* `app/services/rate_limiter.py` — `AdaptiveRateLimiter` (usage tiers, intervals);
* `app/services/plays.py` — `upsert_play`, `sync_missing_artists`,
  `sync_missing_album`, `sync_all_missing_metadata`;
* `app/scheduler/jobs/spotify.py` — `_schedule_next_poll`, `poll_current_playback`,
  `poll_recently_played`.

Python floats holding exact small decimals are embedded as rationals; Python ints
as `Int`/`Nat`; Python `//` as `Int.fdiv` (floor division); MongoDB collections as
lists of documents; Redis keys as `Option` fields of a cache-state record; a
fallible external HTTP call as an `Except` value supplied by the environment.

Two functions imported by `app/scheduler/jobs/spotify.py` from
`app.services.plays` (`insert_play` and `upsert_track`) are absent from the
source tree; they are modelled from the spec and marked as such in their doc
comments.
-/

namespace Selfhoardify

/-- Python `datetime` value (the fields the code touches). -/
structure PyDateTime where
  year : Nat
  month : Nat
  day : Nat
  hour : Nat
  minute : Nat
  second : Nat
  microsecond : Nat
deriving DecidableEq, Repr

/-- Rounding a timestamp down to the minute — `dt.replace(second=0, microsecond=0)`,
as done in `upsert_play` (`app/services/plays.py`). -/
def PyDateTime.roundToMinute (t : PyDateTime) : PyDateTime :=
  { t with second := 0, microsecond := 0 }

/-- Embedding of `parse_iso_datetime` (`app/services/plays.py` lines 11-18): on a value that is
already a `datetime` (the `isinstance` branch) it is the identity; the ISO-string
branch is an encoding detail outside this embedding, where every play record
carries its timestamp as a `PyDateTime` already. -/
def parse_iso_datetime (t : PyDateTime) : PyDateTime := t

/-- The play dict that crosses component boundaries (shape produced by
`get_current_playback` / `get_recently_played` in `app/services/spotify.py`).
Keys read with `play[...]` are plain fields; keys read with `play.get(...)`
are `Option` fields. -/
structure Play where
  track_id : String
  name : String
  artists : List String
  artist_ids : List String
  album : String
  album_id : Option String
  album_art : Option String
  duration_ms : Int
  explicit : Option Bool
  popularity : Option Int
  disc_number : Option Int
  track_number : Option Int
  isrc : Option String
  played_at : PyDateTime
  played_at_rounded : Option PyDateTime
  device_name : Option String
  device_type : Option String
  context_type : Option String
  context_uri : Option String
  shuffle_state : Option Bool
deriving DecidableEq, Repr

/-- A document of the `plays` collection.  Fields written by `$set` on every
upsert are plain (or `Option` when the written value may be `None`); the
device/context fields, written only when present in the incoming play, stay
`Option`; `track_id` and `created_at` are written by `$setOnInsert` only. -/
structure PlayEntry where
  track_id : String
  played_at_rounded : PyDateTime
  name : String
  artists : List String
  artist_ids : List String
  album : String
  album_id : Option String
  album_art : Option String
  duration_ms : Int
  explicit : Option Bool
  popularity : Option Int
  disc_number : Option Int
  track_number : Option Int
  isrc : Option String
  played_at : PyDateTime
  created_at : PyDateTime
  device_name : Option String
  device_type : Option String
  context_type : Option String
  context_uri : Option String
  shuffle_state : Option Bool
deriving DecidableEq, Repr

/-- The minute-rounded key value used for a play: the provided
`played_at_rounded` if any, else `played_at` with seconds and microseconds
zeroed (`upsert_play`, `app/services/plays.py` lines 26-30). -/
def Play.roundedKey (p : Play) : PyDateTime :=
  p.played_at_rounded.getD (parse_iso_datetime p.played_at).roundToMinute

/-- The Mongo filter `{"track_id": ..., "played_at_rounded": ...}` as a predicate. -/
def playKeyMatches (tid : String) (rounded : PyDateTime) (e : PlayEntry) : Bool :=
  e.track_id == tid && e.played_at_rounded == rounded

/-- The `$set` part of the update document of `upsert_play`: overwrites the
metadata fields and the timestamps, and the device/context fields only when the
incoming play carries them. -/
def applySetFields (p : Play) (rounded : PyDateTime) (e : PlayEntry) : PlayEntry :=
  { e with
    name := p.name
    artists := p.artists
    artist_ids := p.artist_ids
    album := p.album
    album_id := p.album_id
    album_art := p.album_art
    duration_ms := p.duration_ms
    explicit := p.explicit
    popularity := p.popularity
    disc_number := p.disc_number
    track_number := p.track_number
    isrc := p.isrc
    played_at := parse_iso_datetime p.played_at
    played_at_rounded := rounded
    device_name := p.device_name.orElse fun _ => e.device_name
    device_type := p.device_type.orElse fun _ => e.device_type
    context_type := p.context_type.orElse fun _ => e.context_type
    context_uri := p.context_uri.orElse fun _ => e.context_uri
    shuffle_state := p.shuffle_state.orElse fun _ => e.shuffle_state }

/-- The document created when the upsert filter matches nothing: `$set` fields
plus the `$setOnInsert` fields `track_id` and `created_at` (`now` is the value
of `datetime.now(timezone.utc)` at the call). -/
def newPlayEntry (p : Play) (rounded : PyDateTime) (now : PyDateTime) : PlayEntry :=
  { track_id := p.track_id
    played_at_rounded := rounded
    name := p.name
    artists := p.artists
    artist_ids := p.artist_ids
    album := p.album
    album_id := p.album_id
    album_art := p.album_art
    duration_ms := p.duration_ms
    explicit := p.explicit
    popularity := p.popularity
    disc_number := p.disc_number
    track_number := p.track_number
    isrc := p.isrc
    played_at := parse_iso_datetime p.played_at
    created_at := now
    device_name := p.device_name
    device_type := p.device_type
    context_type := p.context_type
    context_uri := p.context_uri
    shuffle_state := p.shuffle_state }

/-- Mongo `update_one` touches the first document matching the filter. -/
def updateFirst {α : Type} (f : α → Bool) (g : α → α) : List α → List α
  | [] => []
  | e :: rest => if f e then g e :: rest else e :: updateFirst f g rest

/-- Embedding of `upsert_play` (`app/services/plays.py` lines 21-72): Mongo `update_one` with
`upsert=True` against the filter `(track_id, played_at_rounded)`.  Returns the
new collection and `result.upserted_id is not None`, i.e. `true` exactly when a
document was inserted. -/
def upsert_play (plays : List PlayEntry) (p : Play) (now : PyDateTime) :
    List PlayEntry × Bool :=
  let rounded := p.roundedKey
  match plays.find? (playKeyMatches p.track_id rounded) with
  | some _ => (updateFirst (playKeyMatches p.track_id rounded) (applySetFields p rounded) plays, false)
  | none => (plays ++ [newPlayEntry p rounded now], true)

/-- Modelled from the spec: `insert_play` is imported by
`app/scheduler/jobs/spotify.py` from `app.services.plays` but absent from the
source tree.  Per the spec it inserts a PlayLogEntry under the rounded-minute
composite key, treats a duplicate-key rejection as a success-no-op ("skip"),
and "returns True if new, False if duplicate". -/
def insert_play (plays : List PlayEntry) (p : Play) (now : PyDateTime) :
    List PlayEntry × Bool :=
  let rounded := p.roundedKey
  match plays.find? (playKeyMatches p.track_id rounded) with
  | some _ => (plays, false)
  | none => (plays ++ [newPlayEntry p rounded now], true)

/-- A document of the `tracks` collection (fields the spec names: identity,
metadata, and the `listen_count` counter). -/
structure Track where
  track_id : String
  name : String
  artists : List String
  album : String
  listen_count : Nat
deriving DecidableEq, Repr

/-- Modelled from the spec: `upsert_track` is imported by
`app/scheduler/jobs/spotify.py` from `app.services.plays` but absent from the
source tree.  Per the spec, a Track is "created on first observation; every
subsequent observation updates metadata (idempotent) and conditionally
increments `listen_count`"; with `increment=true`, `listen_count` after N calls
equals the prior count + N; the returned flag indicates first-ever creation. -/
def trackSetFields (p : Play) (increment_count : Bool) (t : Track) : Track :=
  { t with
    name := p.name
    artists := p.artists
    album := p.album
    listen_count := t.listen_count + (if increment_count then 1 else 0) }

def upsert_track (tracks : List Track) (p : Play) (increment_count : Bool) :
    List Track × Bool :=
  match tracks.find? (fun t => t.track_id == p.track_id) with
  | some _ =>
      (updateFirst (fun t => t.track_id == p.track_id)
        (trackSetFields p increment_count) tracks, false)
  | none =>
      (tracks ++ [{ track_id := p.track_id
                    name := p.name
                    artists := p.artists
                    album := p.album
                    listen_count := if increment_count then 1 else 0 }], true)

/-- The `listen_count` recorded for a track id (0 when the track is absent). -/
def listenCountOf (tracks : List Track) (tid : String) : Nat :=
  match tracks.find? (fun t => t.track_id == tid) with
  | some t => t.listen_count
  | none => 0

end Selfhoardify

namespace Selfhoardify

/-! ## AdaptiveRateLimiter (`app/services/rate_limiter.py`) -/

/-- The limiter's configuration (`AdaptiveRateLimiter.__init__` defaults).  The
rolling deque of request timestamps is process state; the policy functions
below take the in-window request count as an argument, which is what
`get_requests_in_window` returns after purging. -/
structure AdaptiveRateLimiter where
  window_seconds : Nat := 30
  max_requests : Nat := 90
  min_interval : ℚ := 3
  max_interval : ℚ := 30
  base_interval : ℚ := 5
deriving DecidableEq, Repr

/-- The module-level `spotify_rate_limiter = AdaptiveRateLimiter()`. -/
def spotify_rate_limiter : AdaptiveRateLimiter := {}

/-- Embedding of `get_usage_ratio`: in-window request count divided by `max_requests`. -/
def AdaptiveRateLimiter.usage_ratio (rl : AdaptiveRateLimiter) (count : Nat) : ℚ :=
  (count : ℚ) / (rl.max_requests : ℚ)

/-- Embedding of `get_next_interval` (`app/services/rate_limiter.py` lines 58-74): tiered
policy over the usage ratio, all comparisons strict. -/
def AdaptiveRateLimiter.get_next_interval (rl : AdaptiveRateLimiter) (count : Nat) : ℚ :=
  let usage := rl.usage_ratio count
  if usage > 8/10 then rl.max_interval
  else if usage > 5/10 then rl.base_interval * 2
  else if usage > 2/10 then rl.base_interval
  else rl.min_interval

/-! ## Scheduling (`app/scheduler/jobs/spotify.py`) -/

/-- The interval chosen by `_schedule_next_poll` (lines 36-61):
`2.0 if requests_made > 1 else 1.0` seconds. -/
def next_poll_interval (requests_made : Nat) : ℚ :=
  if requests_made > 1 then 2 else 1

/-- The TTL computation of `poll_current_playback` (lines 93-95):
`remaining_ms = duration_ms - progress_ms`;
`ttl_seconds = max((remaining_ms // 1000) + 30, 60)`.
Python `//` is floor division, i.e. `Int.fdiv`. -/
def ttl_seconds (duration_ms progress_ms : Int) : Int :=
  let remaining_ms := duration_ms - progress_ms
  max (remaining_ms.fdiv 1000 + 30) 60

/-! ## Metadata sync (`app/services/plays.py`) -/

/-- Payload of one artist of an `sp.artists(ids)` response (the fields the code
stores).  The upstream API returns, for each requested id, the catalog entry
for that id (whose `id` field is the requested id) or `None`; the catalog is
therefore modelled as a function from id to optional payload. -/
structure ArtistInfo where
  name : String
  genres : List String
  popularity : Option Int
  image : Option String
deriving DecidableEq, Repr

/-- A document of the `artists` collection. -/
structure ArtistDoc where
  artist_id : String
  name : String
  genres : List String
  popularity : Option Int
  image : Option String
deriving DecidableEq, Repr

/-- The artist document built by `sync_missing_artists` /
`sync_all_missing_metadata` from a non-null response for id `aid`. -/
def artistDocOf (aid : String) (info : ArtistInfo) : ArtistDoc :=
  { artist_id := aid
    name := info.name
    genres := info.genres
    popularity := info.popularity
    image := info.image }

/-- Payload of one album of an `sp.album` / `sp.albums` response. -/
structure AlbumInfo where
  name : String
  album_type : Option String
  total_tracks : Option Int
  release_date : Option String
  release_date_precision : Option String
  label : Option String
  popularity : Option Int
  image : Option String
  artist_ids : List String
deriving DecidableEq, Repr

/-- A document of the `albums` collection. -/
structure AlbumDoc where
  album_id : String
  name : String
  album_type : Option String
  total_tracks : Option Int
  release_date : Option String
  release_date_precision : Option String
  label : Option String
  popularity : Option Int
  image : Option String
  artist_ids : List String
deriving DecidableEq, Repr

/-- The album document built from a non-null response for id `aid`. -/
def albumDocOf (aid : String) (info : AlbumInfo) : AlbumDoc :=
  { album_id := aid
    name := info.name
    album_type := info.album_type
    total_tracks := info.total_tracks
    release_date := info.release_date
    release_date_precision := info.release_date_precision
    label := info.label
    popularity := info.popularity
    image := info.image
    artist_ids := info.artist_ids }

/-- The ids of `ids` that have a document in the `artists` collection
(the `find({"artist_id": {"$in": ids}})` existence query). -/
def existingArtistIds (artistsDb : List ArtistDoc) (ids : List String) : List String :=
  (artistsDb.filter (fun d => ids.contains d.artist_id)).map (fun d => d.artist_id)

/-- Embedding of `sync_missing_artists` (`app/services/plays.py` lines 163-203): store the
artists among `artist_ids` that are not yet in the collection; non-null
responses are bulk-inserted; returns the count stored. -/
def sync_missing_artists (artistsDb : List ArtistDoc)
    (catalog : String → Option ArtistInfo) (artist_ids : List String) :
    List ArtistDoc × Nat :=
  if artist_ids.isEmpty then (artistsDb, 0)
  else
    let existing_ids := existingArtistIds artistsDb artist_ids
    let missing_ids := artist_ids.filter (fun aid => !existing_ids.contains aid)
    if missing_ids.isEmpty then (artistsDb, 0)
    else
      let docs := missing_ids.filterMap (fun aid => (catalog aid).map (artistDocOf aid))
      (artistsDb ++ docs, docs.length)

/-- Embedding of `sync_missing_album` (`app/services/plays.py` lines 206-237): store the
album if absent; returns 1 if stored, 0 otherwise. -/
def sync_missing_album (albumsDb : List AlbumDoc)
    (catalog : String → Option AlbumInfo) (album_id : Option String) :
    List AlbumDoc × Nat :=
  match album_id with
  | none => (albumsDb, 0)
  | some aid =>
      if (albumsDb.find? (fun d => d.album_id == aid)).isSome then (albumsDb, 0)
      else
        match catalog aid with
        | none => (albumsDb, 0)
        | some info => (albumsDb ++ [albumDocOf aid info], 1)

/-- Fixed-size batching (`for i in range(0, len(l), n)` over slices `l[i:i+n]`),
with the list length as structural fuel: with `0 < n` each step consumes at
least one element, so the fuel suffices. -/
def chunksAux {α : Type} (n : Nat) : Nat → List α → List (List α)
  | 0, _ => []
  | _, [] => []
  | fuel + 1, a :: l => ((a :: l).take n) :: chunksAux n fuel ((a :: l).drop n)

/-- The batches `l[0:n], l[n:2n], ...`. -/
def chunks {α : Type} (n : Nat) (l : List α) : List (List α) :=
  chunksAux n l.length l

/-- The distinct artist ids referenced by stored plays
(the `$unwind`/`$group` aggregation of `sync_all_missing_metadata`). -/
def referencedArtistIds (plays : List PlayEntry) : List String :=
  ((plays.map PlayEntry.artist_ids).flatten).eraseDups

/-- The distinct non-null album ids referenced by stored plays
(the `$match`/`$group` aggregation of `sync_all_missing_metadata`). -/
def referencedAlbumIds (plays : List PlayEntry) : List String :=
  (plays.filterMap PlayEntry.album_id).eraseDups

/-- The ids of `ids` that have a document in the `albums` collection. -/
def existingAlbumIds (albumsDb : List AlbumDoc) (ids : List String) : List String :=
  (albumsDb.filter (fun d => ids.contains d.album_id)).map (fun d => d.album_id)

/-- The artist batch-fetch loop of `sync_all_missing_metadata`: for each batch,
fetch, keep non-null responses, bulk-insert, accumulate the count. -/
def syncArtistBatches (artistsDb : List ArtistDoc)
    (catalog : String → Option ArtistInfo) (batches : List (List String)) :
    List ArtistDoc × Nat :=
  batches.foldl
    (fun acc batch =>
      let docs := batch.filterMap (fun aid => (catalog aid).map (artistDocOf aid))
      (acc.1 ++ docs, acc.2 + docs.length))
    (artistsDb, 0)

/-- The album batch-fetch loop of `sync_all_missing_metadata`. -/
def syncAlbumBatches (albumsDb : List AlbumDoc)
    (catalog : String → Option AlbumInfo) (batches : List (List String)) :
    List AlbumDoc × Nat :=
  batches.foldl
    (fun acc batch =>
      let docs := batch.filterMap (fun aid => (catalog aid).map (albumDocOf aid))
      (acc.1 ++ docs, acc.2 + docs.length))
    (albumsDb, 0)

/-! ## The poller (`app/scheduler/jobs/spotify.py`) -/

/-- The `now_playing` dict of a `get_current_playback` response. -/
structure NowPlaying where
  is_playing : Bool
  title : String
  artist : String
  album : String
  album_art : Option String
  url : String
  progress_ms : Int
  duration_ms : Int
deriving DecidableEq, Repr

/-- A non-empty `get_current_playback` response: the stored play record and the
ephemeral now-playing view. -/
structure PlaybackData where
  play : Play
  now_playing : NowPlaying
deriving DecidableEq, Repr

/-- An exception raised by the external playback fetch (network error, timeout,
upstream 5xx). -/
structure FetchError where
  message : String
deriving DecidableEq, Repr

/-- The real `generate_now_playing_svg` (`app/services/svg.py`) renders an SVG string
from exactly these four inputs; the embedding keeps the inputs as the rendered
artifact, since no claim depends on the markup text. -/
structure SvgImage where
  title : String
  artist : String
  album_art_url : Option String
  is_playing : Bool
deriving DecidableEq, Repr

def generate_now_playing_svg (title artist : String) (album_art_url : Option String)
    (is_playing : Bool) : SvgImage :=
  { title := title, artist := artist, album_art_url := album_art_url,
    is_playing := is_playing }

/-- The Redis keys the poller touches: the now-playing cache and the rendered
SVG (each stored with the TTL it was set with), and `spotify:last_track_id`. -/
structure CacheState where
  now_playing : Option (NowPlaying × Int)
  now_playing_svg : Option (SvgImage × Int)
  last_track_id : Option String
deriving DecidableEq, Repr

/-- The durable MongoDB state. -/
structure DbState where
  plays : List PlayEntry
  tracks : List Track
  artists : List ArtistDoc
  albums : List AlbumDoc
deriving DecidableEq, Repr

/-- Embedding of `sync_all_missing_metadata` (`app/services/plays.py` lines 242-346): derive
the referenced artist and album ids from stored plays, subtract the stored
ones, fetch the missing ids in batches of 50 (artists) and 20 (albums), store
non-null responses, and return the counts synced. -/
def sync_all_missing_metadata (db : DbState)
    (artistCatalog : String → Option ArtistInfo)
    (albumCatalog : String → Option AlbumInfo) : DbState × Nat × Nat :=
  let all_artist_ids := referencedArtistIds db.plays
  let existing_artist_ids := existingArtistIds db.artists all_artist_ids
  let missing_artist_ids :=
    all_artist_ids.filter (fun aid => !existing_artist_ids.contains aid)
  let ra := syncArtistBatches db.artists artistCatalog (chunks 50 missing_artist_ids)
  let all_album_ids := referencedAlbumIds db.plays
  let existing_album_ids := existingAlbumIds db.albums all_album_ids
  let missing_album_ids :=
    all_album_ids.filter (fun aid => !existing_album_ids.contains aid)
  let rb := syncAlbumBatches db.albums albumCatalog (chunks 20 missing_album_ids)
  ({ db with artists := ra.1, albums := rb.1 }, ra.2, rb.2)

/-- The artist missing-set of `sync_all_missing_metadata`: referenced by stored
plays but absent from the artists collection. -/
def missingArtistIds (db : DbState) : List String :=
  (referencedArtistIds db.plays).filter
    (fun aid => !(existingArtistIds db.artists (referencedArtistIds db.plays)).contains aid)

/-- The album missing-set of `sync_all_missing_metadata`. -/
def missingAlbumIds (db : DbState) : List String :=
  (referencedAlbumIds db.plays).filter
    (fun aid => !(existingAlbumIds db.albums (referencedAlbumIds db.plays)).contains aid)

/-- Cache plus durable store. -/
structure PollState where
  cache : CacheState
  db : DbState
deriving DecidableEq, Repr

/-- The external world of one poll cycle: the cached OAuth token (or `None`),
the outcome of the playback fetch (a response, an empty response, or a raised
exception), the artist/album catalogs, and the wall clock. -/
structure PollEnv where
  token_info : Option String
  current_playback : Except FetchError (Option PlaybackData)
  artistCatalog : String → Option ArtistInfo
  albumCatalog : String → Option AlbumInfo
  now : PyDateTime

/-- The dict returned by `poll_current_playback`. -/
inductive PollResult where
  /-- Returned as `{"status": "skipped", "reason": reason}`. -/
  | skipped (reason : String)
  /-- Returned as `{"status": "ok", "playing": False}`. -/
  | okNotPlaying
  /-- Returned as `{"status": "ok", "playing": True, "new_listen": new_listen}`. -/
  | okPlaying (new_listen : Bool)
deriving DecidableEq, Repr

/-- What a completed cycle produced: the resulting state, the returned dict,
the `requests_made` argument handed to `_schedule_next_poll`, and whether the
external playback fetch was performed (effect tracking). -/
structure PollOutcome where
  state : PollState
  result : PollResult
  schedArg : Nat
  fetched : Bool
deriving DecidableEq, Repr

/-- Embedding of `poll_current_playback` (`app/scheduler/jobs/spotify.py` lines 64-144).
The body has no exception handler: a `FetchError` from the external fetch
propagates (`Except.error`), in which case no `_schedule_next_poll` call is
reached. -/
def poll_current_playback (env : PollEnv) (st : PollState) :
    Except FetchError PollOutcome :=
  match env.token_info with
  | none =>
      -- `_schedule_next_poll(1)`; return skipped
      .ok { state := st, result := .skipped "not authenticated",
            schedArg := 1, fetched := false }
  | some _ =>
      match env.current_playback with
      | .error e => .error e
      | .ok none =>
          -- nothing playing: clear now-playing cache, SVG cache, last_track_id
          let cache : CacheState :=
            { now_playing := none, now_playing_svg := none, last_track_id := none }
          .ok { state := { st with cache := cache }, result := .okNotPlaying,
                schedArg := 1, fetched := true }
      | .ok (some data) =>
          let now_playing := data.now_playing
          let play := data.play
          let current_track_id := play.track_id
          let ttl := ttl_seconds now_playing.duration_ms now_playing.progress_ms
          let svg := generate_now_playing_svg now_playing.title now_playing.artist
            now_playing.album_art now_playing.is_playing
          let cache1 : CacheState :=
            { st.cache with
              now_playing := some (now_playing, ttl)
              now_playing_svg := some (svg, ttl) }
          let last_track_id := st.cache.last_track_id
          -- `current_track_id != last_track_id` (a str never equals None)
          let is_new_listen : Bool := some current_track_id != last_track_id
          if is_new_listen then
            let tu := upsert_track st.db.tracks play true
            let is_new_track := tu.2
            let ip := insert_play st.db.plays play env.now
            let sa :=
              if is_new_track then
                sync_missing_artists st.db.artists env.artistCatalog play.artist_ids
              else (st.db.artists, 0)
            let sb :=
              if is_new_track then
                sync_missing_album st.db.albums env.albumCatalog play.album_id
              else (st.db.albums, 0)
            let requests :=
              1 + (if sa.2 > 0 then 1 else 0) + (if sb.2 > 0 then 1 else 0)
            let cache2 := { cache1 with last_track_id := some current_track_id }
            .ok { state :=
                    { cache := cache2
                      db := { plays := ip.1, tracks := tu.1,
                              artists := sa.1, albums := sb.1 } }
                  result := .okPlaying true, schedArg := requests, fetched := true }
          else
            .ok { state := { st with cache := cache1 },
                  result := .okPlaying false, schedArg := 1, fetched := true }

/-- The dict returned by `poll_recently_played`. -/
inductive BackstopResult where
  | skipped (reason : String)
  | ok (inserted skipped : Nat)
deriving DecidableEq, Repr

/-- One iteration of the `for play in plays` loop of `poll_recently_played`
(lines 163-175): attempt the play insert; increment the track's
`listen_count` only when the insert was new, else upsert metadata without
incrementing. -/
def backstopStep (now : PyDateTime) (acc : DbState × Nat × Nat) (play : Play) :
    DbState × Nat × Nat :=
  let db := acc.1
  let inserted := acc.2.1
  let skipped := acc.2.2
  let ip := insert_play db.plays play now
  let was_new := ip.2
  if was_new then
    let tu := upsert_track db.tracks play true
    ({ db with plays := ip.1, tracks := tu.1 }, inserted + 1, skipped)
  else
    let tu := upsert_track db.tracks play false
    ({ db with plays := ip.1, tracks := tu.1 }, inserted, skipped + 1)

/-- Embedding of `poll_recently_played` (`app/scheduler/jobs/spotify.py` lines 147-178):
the hourly backstop.  `recent` is the transformed `get_recently_played`
response. -/
def poll_recently_played (token_info : Option String) (recent : List Play)
    (now : PyDateTime) (db : DbState) : DbState × BackstopResult :=
  match token_info with
  | none => (db, .skipped "not authenticated")
  | some _ =>
      if recent.isEmpty then (db, .ok 0 0)
      else
        let r := recent.foldl (backstopStep now) (db, 0, 0)
        (r.1, .ok r.2.1 r.2.2)

/-! ## Sample values used in witnesses and counterexamples -/

/-- Timestamp 2025-01-01 12:00:37. -/
def t120037 : PyDateTime := ⟨2025, 1, 1, 12, 0, 37, 0⟩

/-- Timestamp 2025-01-01 12:00:41 — the same minute as `t120037`. -/
def t120041 : PyDateTime := ⟨2025, 1, 1, 12, 0, 41, 0⟩

/-- Timestamp 2025-01-01 12:01:00 — the wall clock at processing time. -/
def t1201 : PyDateTime := ⟨2025, 1, 1, 12, 1, 0, 0⟩

/-- A live-poller play observed at 12:00:37. -/
def samplePlay : Play :=
  { track_id := "T1", name := "Song", artists := ["A"], artist_ids := ["a1"],
    album := "Alb", album_id := some "b1", album_art := none,
    duration_ms := 200000, explicit := none, popularity := none,
    disc_number := none, track_number := none, isrc := none,
    played_at := t120037, played_at_rounded := none,
    device_name := none, device_type := none, context_type := none,
    context_uri := none, shuffle_state := none }

/-- The same listening event observed again at 12:00:41 (same rounded minute). -/
def samplePlay2 : Play := { samplePlay with played_at := t120041 }

/-- The ephemeral view of `samplePlay2` as now playing. -/
def sampleNowPlaying : NowPlaying :=
  { is_playing := true, title := "Song", artist := "A", album := "Alb",
    album_art := none, url := "https://open.spotify.com/track/T1",
    progress_ms := 45000, duration_ms := 200000 }

/-- A non-empty playback response carrying `samplePlay2`. -/
def samplePlayback : PlaybackData :=
  { play := samplePlay2, now_playing := sampleNowPlaying }

/-- Empty cache, empty durable store. -/
def emptyPollState : PollState :=
  { cache := { now_playing := none, now_playing_svg := none, last_track_id := none },
    db := { plays := [], tracks := [], artists := [], albums := [] } }

/-- A cycle with no cached OAuth token. -/
def envUnauth : PollEnv :=
  { token_info := none, current_playback := .ok none,
    artistCatalog := fun _ => none, albumCatalog := fun _ => none, now := t1201 }

/-- A cycle where the external fetch raises (network read timeout). -/
def envFetchFails : PollEnv :=
  { token_info := some "tok", current_playback := .error ⟨"ReadTimeout"⟩,
    artistCatalog := fun _ => none, albumCatalog := fun _ => none, now := t1201 }

/-- An authenticated cycle whose fetch observes `samplePlayback`. -/
def envPlaying : PollEnv :=
  { token_info := some "tok", current_playback := .ok (some samplePlayback),
    artistCatalog := fun _ => none, albumCatalog := fun _ => none, now := t1201 }

/-- The play-log document the live poller would store for `samplePlay`
at 12:01. -/
def entry0 : PlayEntry := newPlayEntry samplePlay samplePlay.roundedKey t1201

/-- A store that already holds the (T1, 12:00) listening event — as the
backstop poller leaves it — with the track counted once and the marker clear. -/
def stDup : PollState :=
  { cache := { now_playing := none, now_playing_svg := none, last_track_id := none },
    db := { plays := [entry0],
            tracks := [{ track_id := "T1", name := "Song", artists := ["A"],
                         album := "Alb", listen_count := 1 }],
            artists := [], albums := [] } }

/-- Number of stored plays matching the composite key
`(track_id, played_at_rounded)`. -/
def countKey (plays : List PlayEntry) (tid : String) (rounded : PyDateTime) : Nat :=
  (plays.filter (playKeyMatches tid rounded)).length

/-- A play-log insert attempt as performed in the code base: `true` selects
`insert_play` (the call both the live and the backstop poller make), `false`
selects the service's own `upsert_play`. -/
def playInsertAttempt :
    Bool → List PlayEntry → Play → PyDateTime → List PlayEntry × Bool
  | true, plays, p, now => insert_play plays p now
  | false, plays, p, now => upsert_play plays p now

end Selfhoardify

namespace Selfhoardify

/-! ## Theorems -/

/-- C4: for every in-window request count, `get_next_interval` of the module
limiter returns `max_interval` iff the usage ratio exceeds 0.8, `base_interval
× 2` iff it lies in (0.5, 0.8], `base_interval` iff it lies in (0.2, 0.5], and
`min_interval` iff it is at most 0.2 — so at the exact boundaries 0.8, 0.5 and
0.2 the lower tier is selected (all comparisons strictly greater-than). -/
theorem get_next_interval_tier_selection (count : Nat) :
    (spotify_rate_limiter.get_next_interval count = spotify_rate_limiter.max_interval
        ↔ 8/10 < spotify_rate_limiter.usage_ratio count)
    ∧ (spotify_rate_limiter.get_next_interval count
          = spotify_rate_limiter.base_interval * 2
        ↔ (5/10 < spotify_rate_limiter.usage_ratio count
            ∧ spotify_rate_limiter.usage_ratio count ≤ 8/10))
    ∧ (spotify_rate_limiter.get_next_interval count = spotify_rate_limiter.base_interval
        ↔ (2/10 < spotify_rate_limiter.usage_ratio count
            ∧ spotify_rate_limiter.usage_ratio count ≤ 5/10))
    ∧ (spotify_rate_limiter.get_next_interval count = spotify_rate_limiter.min_interval
        ↔ spotify_rate_limiter.usage_ratio count ≤ 2/10) := by
  have hM : spotify_rate_limiter.max_interval = 30 := rfl
  have hB : spotify_rate_limiter.base_interval = 5 := rfl
  have hm : spotify_rate_limiter.min_interval = 3 := rfl
  rw [hM, hB, hm]
  dsimp only [AdaptiveRateLimiter.get_next_interval]
  rw [hM, hB, hm]
  split_ifs with h1 h2 h3
  · exact ⟨iff_of_true rfl h1,
      iff_of_false (by norm_num) (by rintro ⟨-, hle⟩; exact absurd h1 (not_lt.mpr hle)),
      iff_of_false (by norm_num) (by rintro ⟨-, hle⟩; exact absurd h1 (by push_neg; linarith)),
      iff_of_false (by norm_num) (by intro hle; exact absurd h1 (by push_neg; linarith))⟩
  · exact ⟨iff_of_false (by norm_num) h1,
      iff_of_true rfl ⟨h2, not_lt.mp h1⟩,
      iff_of_false (by norm_num) (by rintro ⟨-, hle⟩; exact absurd h2 (not_lt.mpr hle)),
      iff_of_false (by norm_num) (by intro hle; exact absurd h2 (by push_neg; linarith))⟩
  · exact ⟨iff_of_false (by norm_num) h1,
      iff_of_false (by norm_num) (by rintro ⟨hgt, -⟩; exact absurd hgt (by push_neg; exact not_lt.mp h2)),
      iff_of_true rfl ⟨h3, not_lt.mp h2⟩,
      iff_of_false (by norm_num) (by intro hle; exact absurd h3 (not_lt.mpr hle))⟩
  · exact ⟨iff_of_false (by norm_num) h1,
      iff_of_false (by norm_num) (by rintro ⟨hgt, -⟩; exact absurd hgt h2),
      iff_of_false (by norm_num) (by rintro ⟨hgt, -⟩; exact absurd hgt h3),
      iff_of_true rfl (not_lt.mp h3)⟩

/-- C5: the cache TTL equals `max((duration_ms - progress_ms) // 1000 + 30, 60)`
(Python floor division); whenever the remaining time is non-positive the TTL is
exactly 60, and the TTL never drops below the 60-second floor. -/
theorem ttl_seconds_formula_and_floor (d p : Int) :
    ttl_seconds d p = max ((d - p).fdiv 1000 + 30) 60
    ∧ (d - p ≤ 0 → ttl_seconds d p = 60)
    ∧ 60 ≤ ttl_seconds d p := by
  have hform : ttl_seconds d p = max ((d - p).fdiv 1000 + 30) 60 := rfl
  refine ⟨hform, ?_, ?_⟩
  · intro h
    have hd : (d - p).fdiv 1000 ≤ 0 := by
      rw [Int.fdiv_eq_ediv _ (by norm_num)]
      have := Int.ediv_le_ediv (by norm_num : (0 : Int) < 1000) h
      simpa using this
    rw [hform]
    exact max_eq_right (by linarith)
  · rw [hform]
    exact le_max_right _ _

/-- Witness for C5's hypothesis: a track already past its end
(duration 180000 ms, progress 200000 ms) gets exactly the 60-second floor. -/
theorem ttl_seconds_floor_witness :
    (180000 : Int) - 200000 ≤ 0 ∧ ttl_seconds 180000 200000 = 60 :=
  ⟨by decide, (ttl_seconds_formula_and_floor 180000 200000).2.1 (by decide)⟩

/-- C6 counterexample: the interval scheduled after a one-request cycle is
1.0 s, strictly below the rate limiter's `min_interval` of 3.0 s, so the
scheduled interval is not within the limiter's `[min_interval, max_interval]`
range as the claim states. -/
theorem next_poll_interval_outside_limiter_range :
    next_poll_interval 1 = 1
    ∧ ¬ (spotify_rate_limiter.min_interval ≤ next_poll_interval 1
          ∧ next_poll_interval 1 ≤ spotify_rate_limiter.max_interval) := by
  refine ⟨rfl, ?_⟩
  rintro ⟨h, -⟩
  have h1 : next_poll_interval 1 = 1 := rfl
  have h2 : spotify_rate_limiter.min_interval = 3 := rfl
  rw [h1, h2] at h
  norm_num at h

/-- C6 amended: the next-poll interval chosen by `_schedule_next_poll` is
monotonically non-decreasing in `requests_made` and bounded within
[1.0, 2.0] seconds (not within the rate limiter's `[min_interval,
max_interval]` = [3.0, 30.0]). -/
theorem next_poll_interval_monotone_and_bounded :
    (∀ a b : Nat, a ≤ b → next_poll_interval a ≤ next_poll_interval b)
    ∧ (∀ n : Nat, 1 ≤ next_poll_interval n ∧ next_poll_interval n ≤ 2) := by
  constructor
  · intro a b hab
    unfold next_poll_interval
    split_ifs with ha hb
    · exact le_refl _
    · exact absurd (lt_of_lt_of_le ha hab) hb
    · norm_num
    · exact le_refl _
  · intro n
    unfold next_poll_interval
    split_ifs <;> constructor <;> norm_num

/-- Witness for C6's amended theorem: monotonicity at 1 ≤ 2 and the bounds at
requests_made = 5. -/
theorem next_poll_interval_monotone_and_bounded_witness :
    next_poll_interval 1 ≤ next_poll_interval 2
    ∧ (1 ≤ next_poll_interval 5 ∧ next_poll_interval 5 ≤ 2) :=
  ⟨next_poll_interval_monotone_and_bounded.1 1 2 (by norm_num),
   next_poll_interval_monotone_and_bounded.2 5⟩

/-- C1 (code bug): `poll_current_playback` has no handler around the external
fetch.  On any cycle with a cached token whose fetch raises, the exception
propagates out of the cycle (`Except.error`), so the `_schedule_next_poll`
call at the end of the body is never reached and the self-rescheduling chain
is broken — contrary to the claim that a fetch failure degrades to a skipped
cycle with the next cycle scheduled unconditionally. -/
theorem fetch_exception_escapes_poll_cycle (st : PollState) (e : FetchError) :
    poll_current_playback
      { token_info := some "tok", current_playback := .error e,
        artistCatalog := fun _ => none, albumCatalog := fun _ => none,
        now := t1201 } st
      = .error e := rfl

/-- C7 counterexample: in an unauthenticated cycle the code calls
`_schedule_next_poll(1)`, so the scheduling step receives `requests_made = 1`,
not 0 as the claim states. -/
theorem unauthenticated_schedArg_one_not_zero :
    (poll_current_playback envUnauth emptyPollState).map PollOutcome.schedArg = .ok 1
    ∧ (poll_current_playback envUnauth emptyPollState).map PollOutcome.schedArg
        ≠ .ok 0 := by
  refine ⟨rfl, ?_⟩
  intro h
  have := Except.ok.inj h
  simp at this

/-- C7 amended: every cycle with no cached credential returns
`{"status": "skipped", "reason": "not authenticated"}`, performs no external
fetch and leaves the cache and the durable store untouched, and still
schedules the next cycle — handing `requests_made = 1` (not 0) to the
scheduling step. -/
theorem unauthenticated_cycle_skips_and_reschedules (env : PollEnv) (st : PollState)
    (h : env.token_info = none) :
    poll_current_playback env st =
      .ok { state := st, result := .skipped "not authenticated",
            schedArg := 1, fetched := false } := by
  unfold poll_current_playback
  rw [h]

/-- Witness for C7's amended theorem at a concrete unauthenticated cycle. -/
theorem unauthenticated_cycle_skips_and_reschedules_witness :
    poll_current_playback envUnauth emptyPollState =
      .ok { state := emptyPollState, result := .skipped "not authenticated",
            schedArg := 1, fetched := false } :=
  unauthenticated_cycle_skips_and_reschedules envUnauth emptyPollState rfl

/-! ### Helper lemmas about `updateFirst`, `find?` and the stores -/

/-- Computing `find?` over `updateFirst` with the same predicate: the first match is the
transformed one, provided the transformation preserves the predicate. -/
lemma find?_updateFirst {α : Type} (p : α → Bool) (g : α → α)
    (hg : ∀ a, p a = true → p (g a) = true) (l : List α) :
    (updateFirst p g l).find? p = (l.find? p).map g := by
  induction l with
  | nil => rfl
  | cons a t ih =>
      by_cases ha : p a = true
      · rw [updateFirst, if_pos ha, List.find?_cons_of_pos _ (hg a ha),
          List.find?_cons_of_pos _ ha, Option.map_some']
      · have ha' : ¬ p a = true := ha
        rw [updateFirst, if_neg ha', List.find?_cons_of_neg _ ha',
          List.find?_cons_of_neg _ ha', ih]

/-- Applying `updateFirst` with a predicate-preserving transformation keeps the number
of matching documents. -/
lemma filter_updateFirst_length {α : Type} (p : α → Bool) (g : α → α)
    (hg : ∀ a, p a = true → p (g a) = true) (l : List α) :
    ((updateFirst p g l).filter p).length = (l.filter p).length := by
  induction l with
  | nil => rfl
  | cons a t ih =>
      by_cases ha : p a = true
      · rw [updateFirst, if_pos ha, List.filter_cons, List.filter_cons,
          if_pos (hg a ha), if_pos ha]
        simp
      · have ha' : ¬ p a = true := ha
        rw [updateFirst, if_neg ha', List.filter_cons, List.filter_cons,
          if_neg ha', if_neg ha']
        exact ih

/-- Calling `upsert_track` with `increment_count = true` raises the track's
`listen_count` by exactly one (whether the track pre-exists or is created). -/
lemma upsert_track_increments (tracks : List Track) (p : Play) :
    listenCountOf (upsert_track tracks p true).1 p.track_id
      = listenCountOf tracks p.track_id + 1 := by
  unfold upsert_track listenCountOf
  cases h : tracks.find? (fun t => t.track_id == p.track_id) with
  | none =>
      simp only [h]
      rw [List.find?_append, h, Option.none_or]
      simp [List.find?]
  | some t =>
      simp only [h]
      rw [find?_updateFirst (fun t => t.track_id == p.track_id)
        (trackSetFields p true) (fun a ha => ha) tracks, h, Option.map_some']
      simp [trackSetFields]

/-- Calling `upsert_track` with `increment_count = false` leaves the track's
`listen_count` unchanged (0 when the track is created). -/
lemma upsert_track_keeps_count (tracks : List Track) (p : Play) :
    listenCountOf (upsert_track tracks p false).1 p.track_id
      = listenCountOf tracks p.track_id := by
  unfold upsert_track listenCountOf
  cases h : tracks.find? (fun t => t.track_id == p.track_id) with
  | none =>
      simp only [h]
      rw [List.find?_append, h, Option.none_or]
      simp [List.find?]
  | some t =>
      simp only [h]
      rw [find?_updateFirst (fun t => t.track_id == p.track_id)
        (trackSetFields p false) (fun a ha => ha) tracks, h, Option.map_some']
      simp [trackSetFields]

/-- A zero match count under the key forces `find?` to miss. -/
lemma find?_none_of_countKey_zero {plays : List PlayEntry} {tid : String}
    {r : PyDateTime} (h : countKey plays tid r = 0) :
    plays.find? (playKeyMatches tid r) = none := by
  rw [List.find?_eq_none]
  intro x hx
  exact List.filter_eq_nil_iff.mp (List.length_eq_zero.mp h) x hx

/-- The freshly built play document matches its own composite key. -/
lemma newPlayEntry_matches (p : Play) (now : PyDateTime) :
    playKeyMatches p.track_id p.roundedKey (newPlayEntry p p.roundedKey now) = true := by
  simp [playKeyMatches, newPlayEntry]

/-- Appending the fresh document adds exactly one key match. -/
lemma countKey_append_new (plays : List PlayEntry) (p : Play) (now : PyDateTime) :
    countKey (plays ++ [newPlayEntry p p.roundedKey now]) p.track_id p.roundedKey
      = countKey plays p.track_id p.roundedKey + 1 := by
  unfold countKey
  rw [List.filter_append, List.length_append, List.filter_cons,
    if_pos (newPlayEntry_matches p now), List.filter_nil]
  rfl

/-- A positive match count means `find?` hits. -/
lemma find?_isSome_of_countKey_pos {plays : List PlayEntry} {tid : String}
    {r : PyDateTime} (h : 0 < countKey plays tid r) :
    (plays.find? (playKeyMatches tid r)).isSome = true := by
  rw [List.find?_isSome]
  unfold countKey at h
  cases hf : plays.filter (playKeyMatches tid r) with
  | nil => rw [hf] at h; simp at h
  | cons x xs =>
      have hx : x ∈ plays.filter (playKeyMatches tid r) := by
        rw [hf]; exact List.mem_cons_self x xs
      exact ⟨x, (List.mem_filter.mp hx).1, (List.mem_filter.mp hx).2⟩

/-- Calling `insert_play` on a fresh key appends the document and reports an insert. -/
lemma insert_play_fresh {plays : List PlayEntry} {p : Play} {now : PyDateTime}
    (h : plays.find? (playKeyMatches p.track_id p.roundedKey) = none) :
    insert_play plays p now = (plays ++ [newPlayEntry p p.roundedKey now], true) := by
  simp only [insert_play]
  rw [h]

/-- Calling `upsert_play` on a fresh key appends the same document and reports an
insert. -/
lemma upsert_play_fresh {plays : List PlayEntry} {p : Play} {now : PyDateTime}
    (h : plays.find? (playKeyMatches p.track_id p.roundedKey) = none) :
    upsert_play plays p now = (plays ++ [newPlayEntry p p.roundedKey now], true) := by
  simp only [upsert_play]
  rw [h]

/-- Calling `insert_play` on an occupied key leaves the store unchanged and reports a
skip. -/
lemma insert_play_dup {plays : List PlayEntry} {p : Play} {now : PyDateTime}
    (h : (plays.find? (playKeyMatches p.track_id p.roundedKey)).isSome = true) :
    insert_play plays p now = (plays, false) := by
  simp only [insert_play]
  obtain ⟨e, he⟩ := Option.isSome_iff_exists.mp h
  rw [he]

/-- Calling `upsert_play` on an occupied key updates the first match in place and
reports that nothing was inserted. -/
lemma upsert_play_dup {plays : List PlayEntry} {p : Play} {now : PyDateTime}
    (h : (plays.find? (playKeyMatches p.track_id p.roundedKey)).isSome = true) :
    upsert_play plays p now
      = (updateFirst (playKeyMatches p.track_id p.roundedKey)
          (applySetFields p p.roundedKey) plays, false) := by
  simp only [upsert_play]
  obtain ⟨e, he⟩ := Option.isSome_iff_exists.mp h
  rw [he]

/-- The in-place update of `upsert_play` never changes the composite key of a
matching document. -/
lemma applySetFields_preserves_key {p : Play} {tid : String} {r : PyDateTime}
    (_hid : p.track_id = tid) (hkey : p.roundedKey = r) :
    ∀ e, playKeyMatches tid r e = true
      → playKeyMatches tid r (applySetFields p p.roundedKey e) = true := by
  intro e he
  simp only [playKeyMatches, applySetFields, Bool.and_eq_true, beq_iff_eq] at he ⊢
  exact ⟨he.1, hkey⟩

/-- C2: two play-log insert attempts for the same track and the same rounded
minute, issued through either ingestion path's insert routine against a store
not yet holding the event, leave exactly one document under the composite key;
the first attempt reports inserted and the second reports not-inserted
(a skip, not an error). -/
theorem duplicate_play_insert_is_skipped
    (path1 path2 : Bool) (plays : List PlayEntry) (p1 p2 : Play)
    (now1 now2 : PyDateTime)
    (hid : p2.track_id = p1.track_id)
    (hkey : p2.roundedKey = p1.roundedKey)
    (hfresh : countKey plays p1.track_id p1.roundedKey = 0) :
    (playInsertAttempt path1 plays p1 now1).2 = true
    ∧ (playInsertAttempt path2 (playInsertAttempt path1 plays p1 now1).1 p2 now2).2
        = false
    ∧ countKey
        (playInsertAttempt path2 (playInsertAttempt path1 plays p1 now1).1 p2 now2).1
        p1.track_id p1.roundedKey = 1 := by
  have hnone := find?_none_of_countKey_zero hfresh
  have hstep1 : playInsertAttempt path1 plays p1 now1
      = (plays ++ [newPlayEntry p1 p1.roundedKey now1], true) := by
    cases path1
    · exact upsert_play_fresh hnone
    · exact insert_play_fresh hnone
  have hcount1 : countKey (plays ++ [newPlayEntry p1 p1.roundedKey now1])
      p1.track_id p1.roundedKey = 1 := by
    rw [countKey_append_new, hfresh]
  have hsome : (((plays ++ [newPlayEntry p1 p1.roundedKey now1]).find?
      (playKeyMatches p2.track_id p2.roundedKey)).isSome) = true := by
    rw [hid, hkey]
    exact find?_isSome_of_countKey_pos (by rw [hcount1]; norm_num)
  rw [hstep1]
  refine ⟨rfl, ?_, ?_⟩
  · cases path2
    · rw [show playInsertAttempt false (plays ++ [newPlayEntry p1 p1.roundedKey now1], true).1 p2 now2
          = upsert_play (plays ++ [newPlayEntry p1 p1.roundedKey now1]) p2 now2 from rfl,
        upsert_play_dup hsome]
    · rw [show playInsertAttempt true (plays ++ [newPlayEntry p1 p1.roundedKey now1], true).1 p2 now2
          = insert_play (plays ++ [newPlayEntry p1 p1.roundedKey now1]) p2 now2 from rfl,
        insert_play_dup hsome]
  · cases path2
    · rw [show playInsertAttempt false (plays ++ [newPlayEntry p1 p1.roundedKey now1], true).1 p2 now2
          = upsert_play (plays ++ [newPlayEntry p1 p1.roundedKey now1]) p2 now2 from rfl,
        upsert_play_dup hsome]
      unfold countKey
      rw [← hid, ← hkey,
        filter_updateFirst_length _ _ (applySetFields_preserves_key rfl rfl)]
      rw [hid, hkey]
      exact hcount1
    · rw [show playInsertAttempt true (plays ++ [newPlayEntry p1 p1.roundedKey now1], true).1 p2 now2
          = insert_play (plays ++ [newPlayEntry p1 p1.roundedKey now1]) p2 now2 from rfl,
        insert_play_dup hsome]
      exact hcount1

/-- Witness for C2: the live poller logs (T1, 12:00) from the 12:00:37
observation; the backstop's later attempt for 12:00:41 (same minute) is
skipped and one document remains. -/
theorem duplicate_play_insert_is_skipped_witness :
    (playInsertAttempt true [] samplePlay t1201).2 = true
    ∧ (playInsertAttempt true (playInsertAttempt true [] samplePlay t1201).1
        samplePlay2 t1201).2 = false
    ∧ countKey (playInsertAttempt true (playInsertAttempt true [] samplePlay t1201).1
        samplePlay2 t1201).1 samplePlay.track_id samplePlay.roundedKey = 1 :=
  duplicate_play_insert_is_skipped true true [] samplePlay samplePlay2 t1201 t1201
    rfl rfl rfl

/-- C9 counterexample: the (T1, 12:00) document was stored with
`played_at = 12:00:37`; a second attempt for the same track and minute carrying
`played_at = 12:00:41` matches the composite key (nothing inserted) yet
overwrites the recorded played-at timestamp to 12:00:41 — a present field of
the existing entry does not remain unchanged. -/
theorem duplicate_upsert_overwrites_present_fields :
    (upsert_play [entry0] samplePlay2 t1201).2 = false
    ∧ entry0.played_at = t120037
    ∧ ((upsert_play [entry0] samplePlay2 t1201).1).map PlayEntry.played_at
        = [t120041] :=
  ⟨rfl, rfl, rfl⟩

/-- C9 amended: on a composite-key match, `upsert_play` inserts nothing and
updates the matching entry in place; the entry's `track_id` and `created_at`
(the `$setOnInsert` fields) remain unchanged and fields absent from the new
attempt (device/context) are kept, but the `$set` fields — including the
recorded played-at timestamp and the metadata — are overwritten with the new
attempt's values. -/
theorem duplicate_upsert_updates_in_place
    (plays : List PlayEntry) (p : Play) (now : PyDateTime) (e : PlayEntry)
    (he : plays.find? (playKeyMatches p.track_id p.roundedKey) = some e) :
    (upsert_play plays p now).2 = false
    ∧ (upsert_play plays p now).1
        = updateFirst (playKeyMatches p.track_id p.roundedKey)
            (applySetFields p p.roundedKey) plays
    ∧ (applySetFields p p.roundedKey e).track_id = e.track_id
    ∧ (applySetFields p p.roundedKey e).created_at = e.created_at
    ∧ (applySetFields p p.roundedKey e).played_at = parse_iso_datetime p.played_at
    ∧ (p.device_name = none
        → (applySetFields p p.roundedKey e).device_name = e.device_name) := by
  have hchar := @upsert_play_dup plays p now (by rw [he]; rfl)
  refine ⟨by rw [hchar], by rw [hchar], rfl, rfl, rfl, ?_⟩
  intro hdev
  simp [applySetFields, hdev, Option.orElse]

/-- Witness for C9's amended theorem at the concrete duplicate attempt. -/
theorem duplicate_upsert_updates_in_place_witness :
    (upsert_play [entry0] samplePlay2 t1201).2 = false
    ∧ (upsert_play [entry0] samplePlay2 t1201).1
        = updateFirst (playKeyMatches samplePlay2.track_id samplePlay2.roundedKey)
            (applySetFields samplePlay2 samplePlay2.roundedKey) [entry0]
    ∧ (applySetFields samplePlay2 samplePlay2.roundedKey entry0).track_id
        = entry0.track_id
    ∧ (applySetFields samplePlay2 samplePlay2.roundedKey entry0).created_at
        = entry0.created_at
    ∧ (applySetFields samplePlay2 samplePlay2.roundedKey entry0).played_at
        = parse_iso_datetime samplePlay2.played_at
    ∧ (samplePlay2.device_name = none
        → (applySetFields samplePlay2 samplePlay2.roundedKey entry0).device_name
            = entry0.device_name) :=
  duplicate_upsert_updates_in_place [entry0] samplePlay2 t1201 entry0 rfl

/-- C3 counterexample: the store already holds the (T1, 12:00) play (as the
backstop left it) with `listen_count = 1` and the marker clear; a live cycle
observing T1 again at 12:00:41 detects a new listen, its PlayLogEntry insert
is rejected as a duplicate (the play store keeps exactly one document), and
`listen_count` nevertheless rises from 1 to 2. -/
theorem live_duplicate_insert_still_increments :
    (poll_current_playback envPlaying stDup).map
        (fun o => (o.result, o.state.db.plays.length,
          listenCountOf o.state.db.tracks "T1"))
      = .ok (.okPlaying true, 1, 2)
    ∧ stDup.db.plays.length = 1
    ∧ listenCountOf stDup.db.tracks "T1" = 1 :=
  ⟨rfl, rfl, rfl⟩

/-- C3 amended: the backstop path increments a track's `listen_count` exactly
when its PlayLogEntry insert succeeds (a duplicate-rejected cycle leaves the
count unchanged); the live path increments `listen_count` on every detected
new listen — including cycles whose PlayLogEntry insert is rejected as a
duplicate. -/
theorem listen_count_increment_policy :
    (∀ (db : DbState) (now : PyDateTime) (play : Play) (inserted skipped : Nat),
      listenCountOf (backstopStep now (db, inserted, skipped) play).1.tracks
          play.track_id
        = listenCountOf db.tracks play.track_id
          + (if (insert_play db.plays play now).2 then 1 else 0))
    ∧ (∀ (env : PollEnv) (st : PollState) (data : PlaybackData) (tok : String),
        env.token_info = some tok →
        env.current_playback = .ok (some data) →
        st.cache.last_track_id ≠ some data.play.track_id →
        ∃ out, poll_current_playback env st = .ok out
          ∧ out.result = .okPlaying true
          ∧ listenCountOf out.state.db.tracks data.play.track_id
              = listenCountOf st.db.tracks data.play.track_id + 1) := by
  constructor
  · intro db now play inserted skipped
    simp only [backstopStep]
    cases hip : (insert_play db.plays play now).2
    · simp only [hip, Bool.false_eq_true, if_false]
      rw [upsert_track_keeps_count]
      simp
    · simp only [hip, if_true]
      rw [upsert_track_increments]
  · intro env st data tok htok hfetch hmarker
    unfold poll_current_playback
    rw [htok, hfetch]
    have hne : (some data.play.track_id != st.cache.last_track_id) = true := by
      rw [bne_iff_ne]
      exact fun h => hmarker h.symm
    simp only [hne, if_true]
    exact ⟨_, rfl, rfl, upsert_track_increments st.db.tracks data.play⟩

/-- Witness for C3's amended theorem: the backstop conjunct at the duplicate
store and the live conjunct at a fresh-marker cycle. -/
theorem listen_count_increment_policy_witness :
    (listenCountOf (backstopStep t1201 (stDup.db, 0, 0) samplePlay2).1.tracks
        samplePlay2.track_id
      = listenCountOf stDup.db.tracks samplePlay2.track_id
        + (if (insert_play stDup.db.plays samplePlay2 t1201).2 then 1 else 0))
    ∧ ∃ out, poll_current_playback envPlaying stDup = .ok out
        ∧ out.result = .okPlaying true
        ∧ listenCountOf out.state.db.tracks samplePlayback.play.track_id
            = listenCountOf stDup.db.tracks samplePlayback.play.track_id + 1 :=
  ⟨listen_count_increment_policy.1 stDup.db t1201 samplePlay2 0 0,
   listen_count_increment_policy.2 envPlaying stDup samplePlayback "tok" rfl rfl
     (by decide)⟩

/-- C10: in a cycle that starts with the last-seen marker unset, any observed
track is classified as a new listen: the cycle performs the Track upsert with
`listen_count` increment and the PlayLogEntry insert attempt, and returns
`new_listen = true`. -/
theorem unset_marker_any_track_is_new_listen
    (env : PollEnv) (st : PollState) (data : PlaybackData) (tok : String)
    (htok : env.token_info = some tok)
    (hfetch : env.current_playback = .ok (some data))
    (hmarker : st.cache.last_track_id = none) :
    ∃ out, poll_current_playback env st = .ok out
      ∧ out.result = .okPlaying true
      ∧ out.state.db.tracks = (upsert_track st.db.tracks data.play true).1
      ∧ out.state.db.plays = (insert_play st.db.plays data.play env.now).1
      ∧ listenCountOf out.state.db.tracks data.play.track_id
          = listenCountOf st.db.tracks data.play.track_id + 1 := by
  unfold poll_current_playback
  rw [htok, hfetch, hmarker]
  simp only [bne_iff_ne, ne_eq, Option.some_ne_none, not_false_eq_true, if_true]
  exact ⟨_, rfl, rfl, rfl, rfl, upsert_track_increments st.db.tracks data.play⟩

/-! ### Helper lemmas for the full metadata sync -/

/-- Flattening the batches reassembles the list (positive batch size). -/
lemma chunksAux_flatten {α : Type} {n : Nat} (hn : 0 < n) :
    ∀ (fuel : Nat) (l : List α), l.length ≤ fuel
      → (chunksAux n fuel l).flatten = l := by
  intro fuel
  induction fuel with
  | zero =>
      intro l hl
      have hnil : l = [] := List.length_eq_zero.mp (Nat.le_zero.mp hl)
      subst hnil
      rfl
  | succ f ih =>
      intro l hl
      cases l with
      | nil => rfl
      | cons a t =>
          have hlen : ((a :: t).drop n).length ≤ f := by
            rw [List.length_drop, List.length_cons]
            rw [List.length_cons] at hl
            omega
          show (((a :: t).take n) :: chunksAux n f ((a :: t).drop n)).flatten = a :: t
          rw [List.flatten_cons, ih _ hlen, List.take_append_drop]

/-- The batches of `chunks` concatenate back to the input list. -/
lemma chunks_flatten {α : Type} {n : Nat} (hn : 0 < n) (l : List α) :
    (chunks n l).flatten = l :=
  chunksAux_flatten hn l.length l (le_refl _)

/-- The artist batch loop appends exactly the non-null fetches of the
concatenated batches and counts them. -/
lemma syncArtistBatches_eq (artistsDb : List ArtistDoc)
    (catalog : String → Option ArtistInfo) (batches : List (List String)) :
    syncArtistBatches artistsDb catalog batches
      = (artistsDb ++ batches.flatten.filterMap
            (fun aid => (catalog aid).map (artistDocOf aid)),
         (batches.flatten.filterMap
            (fun aid => (catalog aid).map (artistDocOf aid))).length) := by
  have aux : ∀ (bs : List (List String)) (acc : List ArtistDoc × Nat),
      bs.foldl
        (fun acc batch =>
          let docs := batch.filterMap (fun aid => (catalog aid).map (artistDocOf aid))
          (acc.1 ++ docs, acc.2 + docs.length)) acc
      = (acc.1 ++ bs.flatten.filterMap (fun aid => (catalog aid).map (artistDocOf aid)),
         acc.2 + (bs.flatten.filterMap
            (fun aid => (catalog aid).map (artistDocOf aid))).length) := by
    intro bs
    induction bs with
    | nil => intro acc; simp
    | cons b t ih =>
        intro acc
        rw [List.foldl_cons, ih]
        simp [List.flatten_cons, List.filterMap_append, List.append_assoc,
          Nat.add_assoc]
  unfold syncArtistBatches
  rw [aux]
  simp

/-- The album batch loop, likewise. -/
lemma syncAlbumBatches_eq (albumsDb : List AlbumDoc)
    (catalog : String → Option AlbumInfo) (batches : List (List String)) :
    syncAlbumBatches albumsDb catalog batches
      = (albumsDb ++ batches.flatten.filterMap
            (fun aid => (catalog aid).map (albumDocOf aid)),
         (batches.flatten.filterMap
            (fun aid => (catalog aid).map (albumDocOf aid))).length) := by
  have aux : ∀ (bs : List (List String)) (acc : List AlbumDoc × Nat),
      bs.foldl
        (fun acc batch =>
          let docs := batch.filterMap (fun aid => (catalog aid).map (albumDocOf aid))
          (acc.1 ++ docs, acc.2 + docs.length)) acc
      = (acc.1 ++ bs.flatten.filterMap (fun aid => (catalog aid).map (albumDocOf aid)),
         acc.2 + (bs.flatten.filterMap
            (fun aid => (catalog aid).map (albumDocOf aid))).length) := by
    intro bs
    induction bs with
    | nil => intro acc; simp
    | cons b t ih =>
        intro acc
        rw [List.foldl_cons, ih]
        simp [List.flatten_cons, List.filterMap_append, List.append_assoc,
          Nat.add_assoc]
  unfold syncAlbumBatches
  rw [aux]
  simp

/-- Closed form of one full sync run: both stores grow by exactly the non-null
fetches of their missing-sets, and the returned counts are the lengths of
those lists. -/
lemma sync_all_spec (db : DbState) (ac : String → Option ArtistInfo)
    (alc : String → Option AlbumInfo) :
    sync_all_missing_metadata db ac alc
      = ({ db with
            artists := db.artists ++ (missingArtistIds db).filterMap
              (fun aid => (ac aid).map (artistDocOf aid)),
            albums := db.albums ++ (missingAlbumIds db).filterMap
              (fun aid => (alc aid).map (albumDocOf aid)) },
         ((missingArtistIds db).filterMap
            (fun aid => (ac aid).map (artistDocOf aid))).length,
         ((missingAlbumIds db).filterMap
            (fun aid => (alc aid).map (albumDocOf aid))).length) := by
  unfold sync_all_missing_metadata missingArtistIds missingAlbumIds
  dsimp only
  rw [syncArtistBatches_eq, syncAlbumBatches_eq,
    chunks_flatten (by norm_num), chunks_flatten (by norm_num)]

/-- Bool arithmetic: a true negation means a false operand. -/
lemma bool_not_true {b : Bool} (h : (!b) = true) : b = false := by
  cases b
  · rfl
  · simp at h

/-- Bool arithmetic: a non-true operand has a true negation. -/
lemma bool_not_of_ne_true {b : Bool} (h : ¬ b = true) : (!b) = true := by
  cases b
  · rfl
  · exact absurd rfl h

/-- Membership in the artist existence query. -/
lemma mem_existingArtistIds {artistsDb : List ArtistDoc} {ids : List String}
    {aid : String} :
    aid ∈ existingArtistIds artistsDb ids
      ↔ ∃ d ∈ artistsDb, d.artist_id = aid ∧ ids.contains aid = true := by
  unfold existingArtistIds
  constructor
  · intro h
    obtain ⟨d, hd, hda⟩ := List.mem_map.mp h
    have hdf := List.mem_filter.mp hd
    exact ⟨d, hdf.1, hda, by rw [← hda]; exact hdf.2⟩
  · rintro ⟨d, hd, hda, hin⟩
    exact List.mem_map.mpr ⟨d, List.mem_filter.mpr ⟨hd, by rw [hda]; exact hin⟩, hda⟩

/-- Membership in the album existence query. -/
lemma mem_existingAlbumIds {albumsDb : List AlbumDoc} {ids : List String}
    {aid : String} :
    aid ∈ existingAlbumIds albumsDb ids
      ↔ ∃ d ∈ albumsDb, d.album_id = aid ∧ ids.contains aid = true := by
  unfold existingAlbumIds
  constructor
  · intro h
    obtain ⟨d, hd, hda⟩ := List.mem_map.mp h
    have hdf := List.mem_filter.mp hd
    exact ⟨d, hdf.1, hda, by rw [← hda]; exact hdf.2⟩
  · rintro ⟨d, hd, hda, hin⟩
    exact List.mem_map.mpr ⟨d, List.mem_filter.mpr ⟨hd, by rw [hda]; exact hin⟩, hda⟩

/-- C8: `sync_all_missing_metadata` is idempotent: running it again on the
state left by a run, with no new referenced artist/album ids added in between,
syncs 0 additional artists and 0 additional albums — the missing-set is
freshly recomputed each run from stored plays minus stored artists/albums. -/
theorem sync_all_missing_metadata_idempotent (db : DbState)
    (ac : String → Option ArtistInfo) (alc : String → Option AlbumInfo) :
    (sync_all_missing_metadata (sync_all_missing_metadata db ac alc).1 ac alc).2.1 = 0
    ∧ (sync_all_missing_metadata (sync_all_missing_metadata db ac alc).1 ac alc).2.2
        = 0 := by
  have h1 := sync_all_spec db ac alc
  have hplays : (sync_all_missing_metadata db ac alc).1.plays = db.plays := by
    rw [h1]
  have hartists : (sync_all_missing_metadata db ac alc).1.artists
      = db.artists ++ (missingArtistIds db).filterMap
          (fun aid => (ac aid).map (artistDocOf aid)) := by
    rw [h1]
  have halbums : (sync_all_missing_metadata db ac alc).1.albums
      = db.albums ++ (missingAlbumIds db).filterMap
          (fun aid => (alc aid).map (albumDocOf aid)) := by
    rw [h1]
  rw [sync_all_spec (sync_all_missing_metadata db ac alc).1 ac alc]
  dsimp only
  constructor
  · rw [List.length_eq_zero, List.filterMap_eq_nil_iff]
    intro aid hmem
    unfold missingArtistIds at hmem
    obtain ⟨hall1, hbool⟩ := List.mem_filter.mp hmem
    have hall : aid ∈ referencedArtistIds db.plays := by
      rw [← hplays]
      exact hall1
    have hnotin : aid ∉ existingArtistIds
        (sync_all_missing_metadata db ac alc).1.artists
        (referencedArtistIds (sync_all_missing_metadata db ac alc).1.plays) := by
      intro hin
      have hc : (existingArtistIds (sync_all_missing_metadata db ac alc).1.artists
          (referencedArtistIds (sync_all_missing_metadata db ac alc).1.plays)).contains
            aid = true := List.elem_iff.mpr hin
      rw [bool_not_true hbool] at hc
      exact Bool.false_ne_true hc
    cases hac : ac aid with
    | none => simp [hac]
    | some info =>
        exfalso
        apply hnotin
        rw [hplays, hartists]
        apply mem_existingArtistIds.mpr
        by_cases hex : (existingArtistIds db.artists
            (referencedArtistIds db.plays)).contains aid = true
        · obtain ⟨d, hd, hda, -⟩ := mem_existingArtistIds.mp (List.elem_iff.mp hex)
          exact ⟨d, List.mem_append_left _ hd, hda, List.elem_iff.mpr hall⟩
        · have hmiss : aid ∈ missingArtistIds db := by
            unfold missingArtistIds
            exact List.mem_filter.mpr ⟨hall, bool_not_of_ne_true hex⟩
          have hdoc : artistDocOf aid info ∈ (missingArtistIds db).filterMap
              (fun a => (ac a).map (artistDocOf a)) :=
            List.mem_filterMap.mpr ⟨aid, hmiss, by rw [hac]; rfl⟩
          exact ⟨artistDocOf aid info, List.mem_append_right _ hdoc, rfl,
            List.elem_iff.mpr hall⟩
  · rw [List.length_eq_zero, List.filterMap_eq_nil_iff]
    intro aid hmem
    unfold missingAlbumIds at hmem
    obtain ⟨hall1, hbool⟩ := List.mem_filter.mp hmem
    have hall : aid ∈ referencedAlbumIds db.plays := by
      rw [← hplays]
      exact hall1
    have hnotin : aid ∉ existingAlbumIds
        (sync_all_missing_metadata db ac alc).1.albums
        (referencedAlbumIds (sync_all_missing_metadata db ac alc).1.plays) := by
      intro hin
      have hc : (existingAlbumIds (sync_all_missing_metadata db ac alc).1.albums
          (referencedAlbumIds (sync_all_missing_metadata db ac alc).1.plays)).contains
            aid = true := List.elem_iff.mpr hin
      rw [bool_not_true hbool] at hc
      exact Bool.false_ne_true hc
    cases hac : alc aid with
    | none => simp [hac]
    | some info =>
        exfalso
        apply hnotin
        rw [hplays, halbums]
        apply mem_existingAlbumIds.mpr
        by_cases hex : (existingAlbumIds db.albums
            (referencedAlbumIds db.plays)).contains aid = true
        · obtain ⟨d, hd, hda, -⟩ := mem_existingAlbumIds.mp (List.elem_iff.mp hex)
          exact ⟨d, List.mem_append_left _ hd, hda, List.elem_iff.mpr hall⟩
        · have hmiss : aid ∈ missingAlbumIds db := by
            unfold missingAlbumIds
            exact List.mem_filter.mpr ⟨hall, bool_not_of_ne_true hex⟩
          have hdoc : albumDocOf aid info ∈ (missingAlbumIds db).filterMap
              (fun a => (alc a).map (albumDocOf a)) :=
            List.mem_filterMap.mpr ⟨aid, hmiss, by rw [hac]; rfl⟩
          exact ⟨albumDocOf aid info, List.mem_append_right _ hdoc, rfl,
            List.elem_iff.mpr hall⟩

/-- Witness for C10 at a concrete fresh cycle: marker unset, `samplePlayback`
observed. -/
theorem unset_marker_any_track_is_new_listen_witness :
    ∃ out, poll_current_playback envPlaying emptyPollState = .ok out
      ∧ out.result = .okPlaying true
      ∧ out.state.db.tracks
          = (upsert_track emptyPollState.db.tracks samplePlayback.play true).1
      ∧ out.state.db.plays
          = (insert_play emptyPollState.db.plays samplePlayback.play envPlaying.now).1
      ∧ listenCountOf out.state.db.tracks samplePlayback.play.track_id
          = listenCountOf emptyPollState.db.tracks samplePlayback.play.track_id + 1 :=
  unset_marker_any_track_is_new_listen envPlaying emptyPollState samplePlayback
    "tok" rfl rfl rfl

end Selfhoardify
